import Mathlib

/-!
Shallow embedding of the multi-calendar date engine (Jalali / Gregorian / Hijri
conversions and holiday classification).

Embedding conventions:
* JavaScript numbers are modelled as exact integers (`Int`).
* `~~(a / b)` (truncation toward zero) is `Int.tdiv`; the source wraps it as `div`.
* The binary `%` operator (remainder with the sign of the dividend) is `Int.tmod`.
* `Math.floor` applied to an exact-rational expression `p/q` (`q > 0`) is
  `Int.fdiv` (floor division) of the scaled integers: e.g.
  `Math.floor(365.25 * x)` is `(1461 * x).fdiv 4`,
  `Math.floor(30.6001 * x)` is `(306001 * x).fdiv 10000`.
  The decimal constants of the source (`30.6001`, `28.5001`, `122.1`,
  `8.01/60`, `10631/30`) are carried as exact rationals; the `.0001`-style
  guard digits of the source keep every floored value away from an integer
  boundary on the relevant ranges, so the exact-rational floor agrees with
  the IEEE-double computation there.
* The source computes each conversion inside a single function body; here
  each body is factored at its natural seam (day-count computation vs.
  extraction from a day count) into named functions whose composition is the
  source function, statement for statement.
-/

namespace JalaliDates

/-- `div(a, b) = ~~(a / b)`: integer division truncating toward zero. -/
def div (a b : Int) : Int := a.tdiv b

/-- Jalali month names (Farvardin .. Esfand). -/
def jalaliMonthNames : List String :=
  ["فروردین", "اردیبهشت", "خرداد", "تیر", "مرداد", "شهریور",
   "مهر", "آبان", "آذر", "دی", "بهمن", "اسفند"]

/-- Hijri month names (Muharram .. Dhu al-Hijjah). -/
def lunarMonthNames : List String :=
  ["محرم", "صفر", "ربیع‌الاول", "ربیع‌الثانی", "جمادی‌الاول", "جمادی‌الثانی",
   "رجب", "شعبان", "رمضان", "شوال", "ذیقعده", "ذیحجه"]

/-- Fixed solar (Jalali) holidays, keyed by the string `"{month}-{day}"`. -/
def SOLAR_HOLIDAYS : List (String × String) :=
  [("1-1", "عید نوروز"),
   ("1-2", "عید نوروز"),
   ("1-3", "عید نوروز"),
   ("1-4", "عید نوروز"),
   ("1-12", "روز جمهوری اسلامی"),
   ("1-13", "روز طبیعت"),
   ("3-14", "رحلت امام خمینی"),
   ("3-15", "قیام ۱۵ خرداد"),
   ("11-22", "پیروزی انقلاب اسلامی"),
   ("12-29", "روز ملی شدن صنعت نفت")]

/-- Fixed lunar (Hijri) holidays, keyed by the string `"{month}-{day}"`. -/
def LUNAR_HOLIDAYS : List (String × String) :=
  [("1-9", "تاسوعای حسینی"),
   ("1-10", "عاشورای حسینی"),
   ("2-20", "اربعین حسینی"),
   ("2-28", "رحلت پیامبر (ص) و شهادت امام حسن (ع)"),
   ("2-30", "شهادت امام رضا (ع)"),
   ("8-15", "نیمه شعبان (ولادت امام زمان)"),
   ("9-21", "شهادت حضرت علی (ع)"),
   ("10-1", "عید سعید فطر"),
   ("10-25", "شهادت امام جعفر صادق (ع)"),
   ("12-10", "عید سعید قربان"),
   ("12-18", "عید سعید غدیر خم")]

/-- The `days` value computed by `gregorianToJalaliCore` (its lines up to
`g_d_m[gm - 1]`): day count of a Gregorian date on the scale used by the
Jalali extraction. -/
def gregorianDayCount (gy gm gd : Int) : Int :=
  let g_d_m : List Int := [0, 31, 59, 90, 120, 151, 181, 212, 243, 273, 304, 334]
  let gy2 : Int := if gm > 2 then gy + 1 else gy
  355666 + 365 * gy + div (gy2 + 3) 4 - div (gy2 + 99) 100
    + div (gy2 + 399) 400 + gd + g_d_m.getD (gm - 1).toNat 0

/-- The remainder of `gregorianToJalaliCore` after `days` is computed:
extraction of the Jalali triple from the day count. -/
def jalaliFromDays (days0 : Int) : Int × Int × Int :=
  let jy : Int := -1595 + 33 * div days0 12053
  let days1 : Int := days0.tmod 12053
  let jy : Int := jy + 4 * div days1 1461
  let days2 : Int := days1.tmod 1461
  let jy : Int := if days2 > 365 then jy + div (days2 - 1) 365 else jy
  let days : Int := if days2 > 365 then (days2 - 1).tmod 365 else days2
  if days < 186 then (jy, 1 + div days 31, 1 + days.tmod 31)
  else (jy, 7 + div (days - 186) 30, 1 + (days - 186).tmod 30)

/-- Gregorian → Jalali conversion core. -/
def gregorianToJalaliCore (gy gm gd : Int) : Int × Int × Int :=
  jalaliFromDays (gregorianDayCount gy gm gd)

/-- The `days` value computed by `jalaliToGregorianCore` (after `jy += 1595`):
day count of a Jalali date on the scale used by the Gregorian extraction. -/
def jalaliDayCount (jy0 jm jd : Int) : Int :=
  let jy : Int := jy0 + 1595
  (-355668) + 365 * jy + div jy 33 * 8 + div (jy.tmod 33 + 3) 4 + jd
    + (if jm < 7 then (jm - 1) * 31 else (jm - 7) * 30 + 186)

/-- The `for (gm = 0; gm < 13; gm++) { v = sal_a[gm]; if (gd <= v) break; gd -= v; }`
loop of `jalaliToGregorianCore`: walks the month-length table, returning the
final loop counter and remaining day. -/
def monthLoop : List Int → Int → Int → Int × Int
  | [], gm, gd => (gm, gd)
  | v :: rest, gm, gd => if gd ≤ v then (gm, gd) else monthLoop rest (gm + 1) (gd - v)

/-- The `sal_a` month-length table of `jalaliToGregorianCore` (index 0 unused,
February depends on the Gregorian leap rule for `gy`). -/
def sal_a (gy : Int) : List Int :=
  [0, 31, if (gy.tmod 4 = 0 ∧ gy.tmod 100 ≠ 0) ∨ gy.tmod 400 = 0 then 29 else 28,
   31, 30, 31, 30, 31, 31, 30, 31, 30, 31]

/-- The remainder of `jalaliToGregorianCore` after `days` is computed:
extraction of the Gregorian triple from the day count. -/
def gregorianFromDays (days0 : Int) : Int × Int × Int :=
  let gy : Int := 400 * div days0 146097
  let days1 : Int := days0.tmod 146097
  -- the `if (days > 36524)` block: decrement, reduce by 36524-day centuries,
  -- and re-increment when the remainder reaches a full year
  let gy : Int := if days1 > 36524 then gy + 100 * div (days1 - 1) 36524 else gy
  let days2 : Int :=
    if days1 > 36524 then
      (if (days1 - 1).tmod 36524 ≥ 365 then (days1 - 1).tmod 36524 + 1
       else (days1 - 1).tmod 36524)
    else days1
  let gy : Int := gy + 4 * div days2 1461
  let days3 : Int := days2.tmod 1461
  let gy : Int := if days3 > 365 then gy + div (days3 - 1) 365 else gy
  let days : Int := if days3 > 365 then (days3 - 1).tmod 365 else days3
  let gd : Int := days + 1
  let r := monthLoop (sal_a gy) 0 gd
  (gy, r.1, r.2)

/-- Jalali → Gregorian conversion core. -/
def jalaliToGregorianCore (jy jm jd : Int) : Int × Int × Int :=
  gregorianFromDays (jalaliDayCount jy jm jd)

/-- Gregorian days-in-month under the standard Gregorian leap rule (the
`sal_a` table of the source): used to state which inputs are valid dates. -/
def gregorianDaysInMonth (gy gm : Int) : Int :=
  (sal_a gy).getD gm.toNat 0

/-- `-2` day offset aligning 21 Jan 2026 to 1 Shaban 1447. -/
def CALIBRATION_OFFSET : Int := -2

/-- First half of `gregorianToHijri` (its lines up to `jd` without the
calibration offset): the Gregorian → Julian Day Number computation, with the
historical Julian/Gregorian cutover handling for years before 1583. -/
def gregorianToJdn (gy gm gd : Int) : Int :=
  let y : Int := if gm < 3 then gy - 1 else gy
  let m : Int := if gm < 3 then gm + 12 else gm
  let a : Int := y.fdiv 100
  let b : Int := 2 - a + a.fdiv 4
  let b : Int := if y < 1583 then 0 else b
  let b : Int := if y = 1582 ∧ m > 10 then -10 else b
  let b : Int := if y = 1582 ∧ m = 10 then (if gd > 4 then -10 else 0) else b
  -- Math.floor(365.25 * (y + 4716)) + Math.floor(30.6001 * (m + 1)) + day + b - 1524
  (1461 * (y + 4716)).fdiv 4 + (306001 * (m + 1)).fdiv 10000 + gd + b - 1524

/-- Second half of `gregorianToHijri` (the `b = 0; if (jd > 2299160) ...`
block through `year = cc - 4716`): inversion of a Julian Day Number back to a
Gregorian date.  In the source these lines reassign the local
`day`/`month`/`year` variables inside `gregorianToHijri`, but their results
are not used by its return value, so they are embedded as this standalone
function. -/
def jdnToGregorian (jd : Int) : Int × Int × Int :=
  let b : Int :=
    if jd > 2299160 then
      -- a = Math.floor((jd - 1867216.25) / 36524.25)
      let a : Int := (4 * jd - 7468865).fdiv 146097
      1 + a - a.fdiv 4
    else 0
  let bb : Int := jd + b + 1524
  -- cc = Math.floor((bb - 122.1) / 365.25)
  let cc : Int := (20 * bb - 2442).fdiv 7305
  -- dd = Math.floor(365.25 * cc)
  let dd : Int := (1461 * cc).fdiv 4
  -- ee = Math.floor((bb - dd) / 30.6001)
  let ee : Int := (10000 * (bb - dd)).fdiv 306001
  -- day = (bb - dd) - Math.floor(30.6001 * ee)
  let day : Int := (bb - dd) - (306001 * ee).fdiv 10000
  let cc2 : Int := if ee > 13 then cc + 1 else cc
  let month : Int := if ee > 13 then ee - 13 else ee - 1
  (cc2 - 4716, month, day)

/-- The within-cycle part of the Hijri extraction (`j`, `im`, `id` of the
source, which depend only on the cycle remainder `z`):
`iyear = 10631/30`, `shift1 = 8.01/60 = 267/2000`. -/
def hijriMD (z0 : Int) : Int × Int × Int :=
  -- j = Math.floor((z - shift1) / iyear) = Math.floor((60000 z - 8010) / 21262000)
  let j : Int := (60000 * z0 - 8010).fdiv 21262000
  -- z = z - Math.floor(j * iyear + shift1) = z - Math.floor((21262000 j + 8010) / 60000)
  let z : Int := z0 - (21262000 * j + 8010).fdiv 60000
  -- im = Math.floor((z + 28.5001) / 29.5) = Math.floor((10000 z + 285001) / 295000)
  let im : Int := (10000 * z + 285001).fdiv 295000
  let im : Int := if im = 13 then 12 else im
  let im : Int := if im = 0 then 1 else im
  -- id = z - Math.floor(29.5 * im - 29) = z - Math.floor((59 im - 58) / 2)
  let id : Int := z - (59 * im - 58).fdiv 2
  (j, im, id)

/-- Final part of `gregorianToHijri` (from `iyear = 10631.0 / 30.0` on):
Julian Day Number → Hijri date via the 30-year lunar cycle approximation. -/
def hijriFromJdn (jd : Int) : Int × Int × Int :=
  let z : Int := jd - 1948084
  -- cyc = Math.floor(z / 10631.0)
  let cyc : Int := z.fdiv 10631
  let r := hijriMD (z - 10631 * cyc)
  (30 * cyc + r.1, r.2.1, r.2.2)

/-- Gregorian → Hijri: Julian Day Number plus the calibration offset, then the
lunar-cycle inversion.  (The intermediate Gregorian re-derivation of the
source, `jdnToGregorian`, does not contribute to the return value.) -/
def gregorianToHijri (gy gm gd : Int) : Int × Int × Int :=
  hijriFromJdn (gregorianToJdn gy gm gd + CALIBRATION_OFFSET)

def gregorianToJalali (gy gm gd : Int) : Int × Int × Int :=
  gregorianToJalaliCore gy gm gd

def jalaliToGregorian (jy jm jd : Int) : Int × Int × Int :=
  jalaliToGregorianCore jy jm jd

def getLunarDate (jy jm jd : Int) : Int × Int × Int :=
  let g := jalaliToGregorian jy jm jd
  gregorianToHijri g.1 g.2.1 g.2.2

/-- Days in a Jalali month; Esfand (month 12) has 30 days exactly when the
`((jy+38)*31) % 128 <= 30` leap approximation holds. -/
def getJalaliDaysInMonth (jy jm : Int) : Int :=
  if jm ≤ 6 then 31
  else if jm ≤ 11 then 30
  else if ((jy + 38) * 31).tmod 128 ≤ 30 then 30 else 29

def isHoliday (jy jm jd dayOfWeek : Int) : Bool :=
  if dayOfWeek = 6 then true
  else
    let solarKey := toString jm ++ "-" ++ toString jd
    if (SOLAR_HOLIDAYS.lookup solarKey).isSome then true
    else
      let l := getLunarDate jy jm jd
      let lunarKey := toString l.2.1 ++ "-" ++ toString l.2.2
      if (LUNAR_HOLIDAYS.lookup lunarKey).isSome then true
      else false

def getHolidayName (jy jm jd dayOfWeek : Int) : Option String :=
  let solarKey := toString jm ++ "-" ++ toString jd
  match SOLAR_HOLIDAYS.lookup solarKey with
  | some name => some name
  | none =>
    let l := getLunarDate jy jm jd
    let lunarKey := toString l.2.1 ++ "-" ++ toString l.2.2
    match LUNAR_HOLIDAYS.lookup lunarKey with
    | some name => some name
    | none => if dayOfWeek = 6 then some "جمعه" else none

/-- Modelled from the spec: `Date.prototype.getDay` (an ECMAScript builtin,
not part of the repository sources) on a `new Date(gy, gm-1, gd)` value is the
proleptic-Gregorian weekday of the civil date, 0 = Sunday convention.
Computed as days since 1970-01-01 (a Thursday) modulo 7. -/
def jsGetDay (gy gm gd : Int) : Int :=
  let y : Int := if gm ≤ 2 then gy - 1 else gy
  let era : Int := y.fdiv 400
  let yoe : Int := y - era * 400
  let doy : Int := (153 * (if gm ≤ 2 then gm + 9 else gm - 3) + 2).fdiv 5 + gd - 1
  let doe : Int := yoe * 365 + yoe.fdiv 4 - yoe.fdiv 100 + doy
  let daysSinceEpoch : Int := era * 146097 + doe - 719468
  (daysSinceEpoch + 4).fmod 7

/-- Returns 0 for Saturday, 1 for Sunday, ..., 6 for Friday. -/
def getDayOfWeekJalali (jy jm jd : Int) : Int :=
  let g := jalaliToGregorian jy jm jd
  let day := jsGetDay g.1 g.2.1 g.2.2
  let map : List Int := [1, 2, 3, 4, 5, 6, 0]
  map.getD day.toNat 0

/-! ## Claim C6: days in a Jalali month -/

/-- C6: for `1 ≤ jm ≤ 12`, `getJalaliDaysInMonth jy jm` is 31 for months 1–6,
30 for months 7–11, and for month 12 it is 30 exactly when
`((jy + 38) * 31) % 128 ≤ 30` (JS `%`, i.e. `Int.tmod`), else 29. -/
theorem getJalaliDaysInMonth_spec (jy jm : Int) (h1 : 1 ≤ jm) (h2 : jm ≤ 12) :
    (jm ≤ 6 → getJalaliDaysInMonth jy jm = 31) ∧
    (7 ≤ jm → jm ≤ 11 → getJalaliDaysInMonth jy jm = 30) ∧
    (jm = 12 →
      (((jy + 38) * 31).tmod 128 ≤ 30 → getJalaliDaysInMonth jy jm = 30) ∧
      (¬ ((jy + 38) * 31).tmod 128 ≤ 30 → getJalaliDaysInMonth jy jm = 29)) := by
  unfold getJalaliDaysInMonth
  refine ⟨?_, ?_, ?_⟩ <;> intros <;> split_ifs <;> omega

/-- Witness for C6 at `(jy, jm) = (1400, 12)`. -/
theorem getJalaliDaysInMonth_spec_witness :
    ((1 : Int) ≤ 12 ∧ (12 : Int) ≤ 12) ∧
    (((12 : Int) ≤ 6 → getJalaliDaysInMonth 1400 12 = 31) ∧
     ((7 : Int) ≤ 12 → (12 : Int) ≤ 11 → getJalaliDaysInMonth 1400 12 = 30) ∧
     ((12 : Int) = 12 →
       ((((1400 : Int) + 38) * 31).tmod 128 ≤ 30 → getJalaliDaysInMonth 1400 12 = 30) ∧
       (¬ (((1400 : Int) + 38) * 31).tmod 128 ≤ 30 → getJalaliDaysInMonth 1400 12 = 29))) :=
  ⟨by decide, getJalaliDaysInMonth_spec 1400 12 (by decide) (by decide)⟩

/-! ## Claim C7: fixed point 1 Farvardin 1400 = 21 March 2021 -/

/-- C7: `gregorianToJalali 2021 3 21 = (1400, 1, 1)` and
`jalaliToGregorian 1400 1 1 = (2021, 3, 21)` hold exactly. -/
theorem fixed_point_1400 :
    gregorianToJalali 2021 3 21 = (1400, 1, 1) ∧
    jalaliToGregorian 1400 1 1 = (2021, 3, 21) := by decide

/-! ## Claim C9: weekday remap for 1 Farvardin 1403 -/

/-- C9: `jalaliToGregorian 1403 1 1` is Gregorian 2024-03-20, a Wednesday
(`getDay() = 3` in the 0 = Sunday convention), and the remap table
`[1,2,3,4,5,6,0]` at index 3 yields 4, so `getDayOfWeekJalali 1403 1 1 = 4`
(0 = Saturday convention). -/
theorem weekday_remap_1403 :
    jalaliToGregorian 1403 1 1 = (2024, 3, 20) ∧
    jsGetDay 2024 3 20 = 3 ∧
    ([1, 2, 3, 4, 5, 6, 0] : List Int).getD 3 0 = 4 ∧
    getDayOfWeekJalali 1403 1 1 = 4 := by decide

/-! ## Claim C10: Hijri calibration reference date -/

/-- C10: `getLunarDate 1404 11 1` (1 Bahman 1404 = Gregorian 21 January 2026)
returns a Hijri triple with month 8 and day 1 (1 Shaban 1447), the reference
point the `CALIBRATION_OFFSET = -2` was tuned to align. -/
theorem hijri_calibration_reference :
    jalaliToGregorian 1404 11 1 = (2026, 1, 21) ∧
    (getLunarDate 1404 11 1).2.1 = 8 ∧
    (getLunarDate 1404 11 1).2.2 = 1 ∧
    getLunarDate 1404 11 1 = (1447, 8, 1) ∧
    CALIBRATION_OFFSET = -2 := by decide

/-! ## Claim C3: `isHoliday` is the pure disjunction -/

/-- C3: `isHoliday jy jm jd dayOfWeek` is true iff `dayOfWeek = 6`, or the key
`"{jm}-{jd}"` is in the solar holiday table, or the key `"{lm}-{ld}"` is in
the lunar holiday table, where `(ly, lm, ld) = getLunarDate jy jm jd`. -/
theorem isHoliday_disjunction (jy jm jd dayOfWeek : Int) :
    isHoliday jy jm jd dayOfWeek = true ↔
      (dayOfWeek = 6 ∨
       (SOLAR_HOLIDAYS.lookup (toString jm ++ "-" ++ toString jd)).isSome = true ∨
       (LUNAR_HOLIDAYS.lookup (toString (getLunarDate jy jm jd).2.1 ++ "-"
          ++ toString (getLunarDate jy jm jd).2.2)).isSome = true) := by
  unfold isHoliday
  split_ifs <;> simp_all

/-! ## Claim C4: `getHolidayName` precedence (corrected: the Friday literal) -/

/-- Counterexample to C4 as stated: on 5 Ordibehesht 1400 (a synthetic
weekday-6 input, not a solar or lunar holiday) the function returns the
Persian literal `"جمعه"`, not the string `"Friday"`. -/
theorem getHolidayName_friday_literal_counterexample :
    SOLAR_HOLIDAYS.lookup (toString (2 : Int) ++ "-" ++ toString (5 : Int)) = none ∧
    LUNAR_HOLIDAYS.lookup (toString (getLunarDate 1400 2 5).2.1 ++ "-"
      ++ toString (getLunarDate 1400 2 5).2.2) = none ∧
    getHolidayName 1400 2 5 6 = some "جمعه" ∧
    getHolidayName 1400 2 5 6 ≠ some "Friday" := by decide

/-- C4 (amended): `getHolidayName` returns the solar table's name when the key
`"{jm}-{jd}"` is present; otherwise the lunar table's name when the key from
`getLunarDate jy jm jd` is present; otherwise the Persian literal `"جمعه"`
("Friday") when `dayOfWeek = 6`; otherwise `none`.  In particular, on a date
that is both a Friday and a solar holiday, the solar name wins. -/
theorem getHolidayName_precedence (jy jm jd dayOfWeek : Int) :
    getHolidayName jy jm jd dayOfWeek =
      (if (SOLAR_HOLIDAYS.lookup (toString jm ++ "-" ++ toString jd)).isSome then
        SOLAR_HOLIDAYS.lookup (toString jm ++ "-" ++ toString jd)
      else if (LUNAR_HOLIDAYS.lookup (toString (getLunarDate jy jm jd).2.1 ++ "-"
          ++ toString (getLunarDate jy jm jd).2.2)).isSome then
        LUNAR_HOLIDAYS.lookup (toString (getLunarDate jy jm jd).2.1 ++ "-"
          ++ toString (getLunarDate jy jm jd).2.2)
      else if dayOfWeek = 6 then some "جمعه" else none) := by
  unfold getHolidayName
  rcases h1 : SOLAR_HOLIDAYS.lookup (toString jm ++ "-" ++ toString jd) with _ | n1
  · rcases h2 : LUNAR_HOLIDAYS.lookup (toString (getLunarDate jy jm jd).2.1 ++ "-"
        ++ toString (getLunarDate jy jm jd).2.2) with _ | n2 <;> simp [h1, h2]
  · simp [h1]

/-! ## Claim C5: `gregorianToHijri` returns a structurally valid triple -/

/-- The within-cycle Hijri extraction always produces a month in 1–12 (the
explicit `13 → 12` and `0 → 1` clamps) and a day in 1–30, for every integer
cycle remainder. -/
theorem hijriMD_bounds (z : Int) :
    1 ≤ (hijriMD z).2.1 ∧ (hijriMD z).2.1 ≤ 12 ∧
    1 ≤ (hijriMD z).2.2 ∧ (hijriMD z).2.2 ≤ 30 := by
  have e1 : ∀ a : Int, a.fdiv 21262000 = a / 21262000 := fun a => Int.fdiv_eq_ediv a (by decide)
  have e2 : ∀ a : Int, a.fdiv 60000 = a / 60000 := fun a => Int.fdiv_eq_ediv a (by decide)
  have e3 : ∀ a : Int, a.fdiv 295000 = a / 295000 := fun a => Int.fdiv_eq_ediv a (by decide)
  have e4 : ∀ a : Int, a.fdiv 2 = a / 2 := fun a => Int.fdiv_eq_ediv a (by decide)
  simp only [hijriMD, e1, e2, e3, e4]
  split_ifs <;> refine ⟨by omega, by omega, by omega, by omega⟩

/-- C5: for every structurally valid Gregorian input (month 1–12, day within
the month under the Gregorian leap rule), `gregorianToHijri` returns a month
in 1–12 and a day in 1–30. -/
theorem gregorianToHijri_structural_validity (gy gm gd : Int)
    (_h1 : 1 ≤ gm) (_h2 : gm ≤ 12) (_h3 : 1 ≤ gd) (_h4 : gd ≤ gregorianDaysInMonth gy gm) :
    1 ≤ (gregorianToHijri gy gm gd).2.1 ∧ (gregorianToHijri gy gm gd).2.1 ≤ 12 ∧
    1 ≤ (gregorianToHijri gy gm gd).2.2 ∧ (gregorianToHijri gy gm gd).2.2 ≤ 30 := by
  unfold gregorianToHijri hijriFromJdn
  exact hijriMD_bounds _

/-- Witness for C5 at Gregorian 2026-01-21. -/
theorem gregorianToHijri_structural_validity_witness :
    ((1 : Int) ≤ 1 ∧ (1 : Int) ≤ 12 ∧ (1 : Int) ≤ 21 ∧
      (21 : Int) ≤ gregorianDaysInMonth 2026 1) ∧
    (1 ≤ (gregorianToHijri 2026 1 21).2.1 ∧ (gregorianToHijri 2026 1 21).2.1 ≤ 12 ∧
     1 ≤ (gregorianToHijri 2026 1 21).2.2 ∧ (gregorianToHijri 2026 1 21).2.2 ≤ 30) :=
  ⟨by decide,
   gregorianToHijri_structural_validity 2026 1 21 (by decide) (by decide) (by decide) (by decide)⟩


/-- Days in month `gm` of Gregorian year `gy`, spelled out. -/
theorem gdim_cases (gy gm : Int) (_h3 : 1 ≤ gm) (_h4 : gm ≤ 12) :
    gregorianDaysInMonth gy gm =
      if gm = 2 then (if (gy.tmod 4 = 0 ∧ gy.tmod 100 ≠ 0) ∨ gy.tmod 400 = 0 then 29 else 28)
      else if gm = 4 ∨ gm = 6 ∨ gm = 9 ∨ gm = 11 then 30 else 31 := by
  interval_cases gm <;> rfl

/-- `gregorianToJdn` written as the closed astronomical formula (for years
after the 1582 cutover). -/
theorem gregorianToJdn_formula (gy gm gd : Int) (h1 : 1600 ≤ gy) (h2 : gy ≤ 3000)
    (_h3 : 1 ≤ gm) (_h4 : gm ≤ 12) :
    gregorianToJdn gy gm gd =
      (1461 * ((if gm < 3 then gy - 1 else gy) + 4716)) / 4
        + (306001 * ((if gm < 3 then gm + 12 else gm) + 1)) / 10000 + gd
        + (2 - (if gm < 3 then gy - 1 else gy) / 100 + ((if gm < 3 then gy - 1 else gy) / 100) / 4)
        - 1524 := by
  have e100 : ∀ a : Int, a.fdiv 100 = a / 100 := fun a => Int.fdiv_eq_ediv a (by decide)
  have e4 : ∀ a : Int, a.fdiv 4 = a / 4 := fun a => Int.fdiv_eq_ediv a (by decide)
  have e10000 : ∀ a : Int, a.fdiv 10000 = a / 10000 := fun a => Int.fdiv_eq_ediv a (by decide)
  simp only [gregorianToJdn, e100, e4, e10000]
  split_ifs <;> omega

/-- The valid-day bound, in implication form. -/
theorem jdn_day_bound (y m d : Int) (_hm1 : 3 ≤ m) (_hm2 : m ≤ 14)
    (hd2 : d ≤ if m = 14 then
        (if ((y+1) % 4 = 0 ∧ (y+1) % 100 ≠ 0) ∨ (y+1) % 400 = 0 then 29 else 28)
      else if m = 4 ∨ m = 6 ∨ m = 9 ∨ m = 11 then 30 else 31) :
    d ≤ 31 ∧ (m = 14 →
      ((((y+1) % 4 = 0 ∧ (y+1) % 100 ≠ 0) ∨ (y+1) % 400 = 0) → d ≤ 29) ∧
      (¬(((y+1) % 4 = 0 ∧ (y+1) % 100 ≠ 0) ∨ (y+1) % 400 = 0) → d ≤ 28)) := by
  split_ifs at hd2 <;> simp_all <;> omega

set_option maxHeartbeats 8000000 in
/-- The Julian-century index used by `jdnToGregorian` on the JDN of a valid
date in 1920–2121 is the Gregorian century minus 4. -/
theorem jdn_century_index (y m d J : Int) (hy1 : 1920 ≤ y) (hy2 : y ≤ 2121)
    (hm1 : 3 ≤ m) (hm2 : m ≤ 14) (hd1 : 1 ≤ d)
    (hd2 : d ≤ if m = 14 then
        (if ((y+1) % 4 = 0 ∧ (y+1) % 100 ≠ 0) ∨ (y+1) % 400 = 0 then 29 else 28)
      else if m = 4 ∨ m = 6 ∨ m = 9 ∨ m = 11 then 30 else 31)
    (hJ : J = 365*y + (y + 4716)/4 + (306001 * (m + 1)) / 10000 + d - y/100 + (y/100)/4
      + 1719818) :
    (4*J - 7468865) / 146097 = y/100 - 4 ∧
    (20 * (J + (1 + (y/100 - 4) - (y/100 - 4)/4) + 1524) - 2442) / 7305 = y + 4716 := by
  have hd4 := jdn_day_bound y m d hm1 hm2 hd2
  clear hd2
  obtain ⟨v, hv, hv0, hv1⟩ : ∃ v, y = 1920 + v ∧ 0 ≤ v ∧ v ≤ 201 :=
    ⟨y - 1920, by omega, by omega, by omega⟩
  subst hv
  interval_cases v <;> omega


set_option maxHeartbeats 1600000 in
/-- Inversion of the Julian Day Number formula: `jdnToGregorian` applied to
the JDN of a valid date (March-based year `y`, month slot `m` in 3..14,
day `d`) recovers the civil date. -/
theorem jdnToGregorian_inv (y m d : Int) (hy1 : 1920 ≤ y) (hy2 : y ≤ 2121)
    (hm1 : 3 ≤ m) (hm2 : m ≤ 14) (hd1 : 1 ≤ d)
    (hd2 : d ≤ if m = 14 then
        (if ((y+1) % 4 = 0 ∧ (y+1) % 100 ≠ 0) ∨ (y+1) % 400 = 0 then 29 else 28)
      else if m = 4 ∨ m = 6 ∨ m = 9 ∨ m = 11 then 30 else 31) :
    jdnToGregorian ((1461 * (y + 4716)) / 4 + (306001 * (m + 1)) / 10000 + d
        + (2 - y / 100 + (y / 100) / 4) - 1524)
      = (if m > 12 then y + 1 else y, if m > 12 then m - 12 else m, d) := by
  have e4 : ∀ a : Int, a.fdiv 4 = a / 4 := fun a => Int.fdiv_eq_ediv a (by decide)
  have e10000 : ∀ a : Int, a.fdiv 10000 = a / 10000 := fun a => Int.fdiv_eq_ediv a (by decide)
  have e146097 : ∀ a : Int, a.fdiv 146097 = a / 146097 := fun a => Int.fdiv_eq_ediv a (by decide)
  have e7305 : ∀ a : Int, a.fdiv 7305 = a / 7305 := fun a => Int.fdiv_eq_ediv a (by decide)
  have e306001 : ∀ a : Int, a.fdiv 306001 = a / 306001 := fun a => Int.fdiv_eq_ediv a (by decide)
  have hd4 := jdn_day_bound y m d hm1 hm2 hd2
  have hkey := jdn_century_index y m d
    ((1461 * (y + 4716)) / 4 + (306001 * (m + 1)) / 10000 + d
        + (2 - y / 100 + (y / 100) / 4) - 1524)
    hy1 hy2 hm1 hm2 hd1 hd2 (by omega)
  obtain ⟨hA, hC⟩ := hkey
  simp only [jdnToGregorian, e4, e10000, e146097, e7305, e306001]
  rw [if_pos (show (1461 * (y + 4716)) / 4 + (306001 * (m + 1)) / 10000 + d
        + (2 - y / 100 + (y / 100) / 4) - 1524 > 2299160 by omega)]
  rw [hA, hC]
  have hD : 1461 * (y + 4716) / 4 = 365 * (y + 4716) + (y + 4716)/4 := by omega
  have hbd : (1461 * (y + 4716)) / 4 + (306001 * (m + 1)) / 10000 + d
        + (2 - y / 100 + (y / 100) / 4) - 1524 + (1 + (y / 100 - 4) - (y / 100 - 4) / 4) + 1524
        - 1461 * (y + 4716) / 4 = (306001 * (m + 1)) / 10000 + d := by omega
  rw [hbd]
  have hEv : 10000 * ((306001 * (m + 1)) / 10000 + d) / 306001 = m + 1 := by
    interval_cases m <;> omega
  rw [hEv]
  have hday : (306001 * (m + 1)) / 10000 + d - 306001 * (m + 1) / 10000 = d := by omega
  split_ifs with hc13 <;> simp only [Prod.mk.injEq] <;>
    refine ⟨by omega, by omega, by omega⟩


/-- C8: the Gregorian → JDN computation of `gregorianToHijri` (without the
calibration offset) and the JDN → Gregorian inversion in its middle are
mutually inverse on 1921–2121. -/
theorem jdn_roundtrip (gy gm gd : Int) (h1 : 1921 ≤ gy) (h2 : gy ≤ 2121)
    (h3 : 1 ≤ gm) (h4 : gm ≤ 12) (h5 : 1 ≤ gd) (h6 : gd ≤ gregorianDaysInMonth gy gm) :
    jdnToGregorian (gregorianToJdn gy gm gd) = (gy, gm, gd) := by
  rw [gregorianToJdn_formula gy gm gd (by omega) (by omega) (by omega) (by omega)]
  rw [gdim_cases gy gm h3 h4] at h6
  have etm4 : gy.tmod 4 = gy % 4 := Int.tmod_eq_emod (by omega) (by decide)
  have etm100 : gy.tmod 100 = gy % 100 := Int.tmod_eq_emod (by omega) (by decide)
  have etm400 : gy.tmod 400 = gy % 400 := Int.tmod_eq_emod (by omega) (by decide)
  rw [etm4, etm100, etm400] at h6
  by_cases hlt : gm < 3
  · simp only [if_pos hlt]
    have hbound : gd ≤ if gm + 12 = 14 then
        (if ((gy - 1 + 1) % 4 = 0 ∧ (gy - 1 + 1) % 100 ≠ 0) ∨ (gy - 1 + 1) % 400 = 0
         then 29 else 28)
      else if gm + 12 = 4 ∨ gm + 12 = 6 ∨ gm + 12 = 9 ∨ gm + 12 = 11 then 30 else 31 := by
      have hq : gy - 1 + 1 = gy := by ring
      rw [hq]
      split_ifs with hx1 hx2 <;> split_ifs at h6 <;> omega
    have hres := jdnToGregorian_inv (gy - 1) (gm + 12) gd (by omega) (by omega)
      (by omega) (by omega) h5 hbound
    rw [hres]
    split_ifs <;> simp only [Prod.mk.injEq, and_true] <;> omega
  · simp only [if_neg hlt]
    have hbound : gd ≤ if gm = 14 then
        (if ((gy + 1) % 4 = 0 ∧ (gy + 1) % 100 ≠ 0) ∨ (gy + 1) % 400 = 0 then 29 else 28)
      else if gm = 4 ∨ gm = 6 ∨ gm = 9 ∨ gm = 11 then 30 else 31 := by
      split_ifs with hx1 hx2 <;> split_ifs at h6 <;> omega
    have hres := jdnToGregorian_inv gy gm gd (by omega) (by omega)
      (by omega) (by omega) h5 hbound
    rw [hres]
    split_ifs <;> simp only [Prod.mk.injEq, and_true] <;> omega

/-- Witness for C8 at Gregorian 2021-03-21. -/
theorem jdn_roundtrip_witness :
    ((1921 : Int) ≤ 2021 ∧ (2021 : Int) ≤ 2121 ∧ (1 : Int) ≤ 3 ∧ (3 : Int) ≤ 12 ∧
      (1 : Int) ≤ 21 ∧ (21 : Int) ≤ gregorianDaysInMonth 2021 3) ∧
    jdnToGregorian (gregorianToJdn 2021 3 21) = (2021, 3, 21) :=
  ⟨by decide, jdn_roundtrip 2021 3 21 (by decide) (by decide) (by decide) (by decide)
    (by decide) (by decide)⟩

-- sanity checks (development)
example : jdnToGregorian (gregorianToJdn 2021 3 21) = (2021, 3, 21) := by decide
example : jalaliDayCount 1400 1 1 = 738235 := by decide
example : gregorianDayCount 2021 3 21 = 1093902 := by decide

end JalaliDates
